import Mathlib

/-!
Verification development for the CERBERUS repository.

Part 1 models the tool-selection orchestration engine of `src/suite.py`
(`Suite.supervisor`, `Suite.create_workflow`, `Suite.suite`).  The external
collaborators are abstracted: the tool execution (`Head(...).head()`, a
network/LLM call) becomes a function `tr : String → String → Except String
String` (an `Except.error` models a raised exception, which `supervisor`
re-raises); the next-tool selection (the `qa_chain.run` / `self.llm.invoke`
call) becomes a function returning `PolicyRes` (`PolicyRes.exn` models a
raised exception, which `supervisor` catches and maps to `"FINISH"`).

Part 2 models the knowledge-graph ingestion engine of `src/threatmap.py`
(`ThreatMap.create_relationship`, `ThreatMap.add_entity`,
`ThreatMap.get_kg_data`) over an explicit property-graph store with Cypher
`MATCH`/`MERGE` semantics for exactly the query shapes the source builds.
-/

/-! ### Part 1: orchestration engine (src/suite.py) -/

instance {ε α : Type _} [DecidableEq ε] [DecidableEq α] : DecidableEq (Except ε α) := fun a b =>
  match a, b with
  | .error e, .error f =>
    if h : e = f then .isTrue (by rw [h]) else .isFalse (fun hh => by injection hh; contradiction)
  | .ok x, .ok y =>
    if h : x = y then .isTrue (by rw [h]) else .isFalse (fun hh => by injection hh; contradiction)
  | .error _, .ok _ => .isFalse (fun hh => by injection hh)
  | .ok _, .error _ => .isFalse (fun hh => by injection hh)

/-- Configuration slice used by `Suite`: `self.config["Suite_config"]["tool_list"]`
(src/suite.py line 41). -/
structure SuiteConfig where
  tool_list : List String
deriving DecidableEq, Repr

/-- `self.list_of_tools = self.config["Suite_config"]["tool_list"] + ["FINISH"]`
(src/suite.py line 41). -/
def listOfTools (cfg : SuiteConfig) : List String :=
  cfg.tool_list ++ ["FINISH"]

/-- The orchestration run state as `Suite.supervisor` and `Suite.suite` use it
(src/suite.py lines 104-105, 115-116, 185-191, 234-240): prompt, aggregated
results string, used tool names, current state and next state.  (The
`AgentState` dataclass of src/_template.py declares fewer fields; see
`AgentState_dataclass_fields` below.) -/
structure AgentState where
  prompt : String
  results : String
  used_tools : List String
  current : String
  next : String
deriving DecidableEq, Repr

/-- The field list of the `AgentState` dataclass as actually declared in
src/_template.py lines 42-47. -/
def AgentState_dataclass_fields : List String :=
  ["prompt", "results", "current", "next"]

/-- The keyword arguments `Suite.suite` passes when constructing the initial
state (src/suite.py lines 234-240), and which `Suite.supervisor` passes when
constructing the new state (lines 185-191). -/
def suite_AgentState_kwargs : List String :=
  ["prompt", "results", "used_tools", "current", "next"]

/-- Outcome of the next-tool selection call (`qa_chain.run` on line 148, or
`self.llm.invoke` on line 171): either a returned string or a raised
exception. -/
inductive PolicyRes where
  | exn : PolicyRes
  | val : String → PolicyRes
deriving DecidableEq, Repr

/-- The tool-execution phase of `Suite.supervisor` (src/suite.py lines
95-116): when `current` is not `"supervisor"`, run the tool; on success append
its output to the results and add `current` to the used tools; on failure
re-raise (lines 111-113).  Returns the new `(results, used_tools)` pair. -/
def execPhase (tr : String → String → Except String String) (st : AgentState) :
    Except String (String × List String) :=
  if st.current ≠ "supervisor" then
    match tr st.current st.prompt with
    | .error e => .error e
    | .ok r => .ok (st.results ++ "\n" ++ r, st.used_tools ++ [st.current])
  else
    .ok (st.results, st.used_tools)

/-- The coercion applied to the policy's answer (src/suite.py lines 144-156
and 170-179): an exception, a value outside `list_of_tools`, or a value in
`used_tools` becomes `"FINISH"`. -/
def coerceNextTool (cfg : SuiteConfig) (used : List String) : PolicyRes → String
  | .exn => "FINISH"
  | .val t => if t ∉ listOfTools cfg ∨ t ∈ used then "FINISH" else t

/-- One `Suite.supervisor` step (src/suite.py lines 91-196).  `hasVec` selects
between the vector-store branch (lines 118-156) and the plain-LLM branch
(lines 158-183); only the latter carries the extra explicit self-loop check of
lines 182-183.  The policy is consulted with the prompt, the updated used
tools, the configured tool list and the updated results. -/
def supervisorStep (cfg : SuiteConfig) (tr : String → String → Except String String)
    (pol : String → List String → List String → String → PolicyRes)
    (hasVec : Bool) (st : AgentState) : Except String AgentState :=
  match execPhase tr st with
  | .error e => .error e
  | .ok (newResults, usedTools) =>
    let cand := coerceNextTool cfg usedTools (pol st.prompt usedTools (listOfTools cfg) newResults)
    let nextTool := if hasVec then cand else if cand = st.current then "FINISH" else cand
    .ok { prompt := st.prompt, results := newResults, used_tools := usedTools,
          current := nextTool, next := nextTool }

/-- The compiled workflow of `Suite.create_workflow` (src/suite.py lines
198-227) drives `supervisor` repeatedly — every tool node is the identity
(line 205) and routes back to `supervisor` (line 211) — until the conditional
edge maps `"FINISH"` to `END` (lines 215-221).  `fuel` bounds the number of
supervisor evaluations performed. -/
def runLoop (cfg : SuiteConfig) (tr : String → String → Except String String)
    (pol : String → List String → List String → String → PolicyRes)
    (hasVec : Bool) : Nat → AgentState → Except String AgentState
  | 0, st => .ok st
  | fuel + 1, st =>
    if st.current = "FINISH" then .ok st
    else
      match supervisorStep cfg tr pol hasVec st with
      | .error e => .error e
      | .ok st' => runLoop cfg tr pol hasVec fuel st'

/-- The seed state built by `Suite.suite` (src/suite.py lines 234-240). -/
def initialState (prompt : String) : AgentState :=
  { prompt := prompt, results := "", used_tools := [], current := "supervisor",
    next := "supervisor" }

/-- The `(results, used_tools)` pair produced by the execution phase, when the
tool call succeeds. -/
def usedAfter (st : AgentState) : List String :=
  if st.current ≠ "supervisor" then st.used_tools ++ [st.current] else st.used_tools

theorem execPhase_ok_used {tr : String → String → Except String String}
    {st : AgentState} {res : String} {used : List String}
    (h : execPhase tr st = .ok (res, used)) : used = usedAfter st := by
  unfold execPhase at h
  unfold usedAfter
  by_cases hc : st.current ≠ "supervisor"
  · simp only [if_pos hc] at h ⊢
    cases htr : tr st.current st.prompt with
    | error e => rw [htr] at h; cases h
    | ok r => rw [htr] at h; cases h; rfl
  · simp only [if_neg hc] at h ⊢
    cases h; rfl

theorem execPhase_total {tr : String → String → Except String String}
    (htr : ∀ t p, ∃ r, tr t p = .ok r) (st : AgentState) :
    ∃ res, execPhase tr st = .ok (res, usedAfter st) := by
  unfold execPhase usedAfter
  by_cases hc : st.current ≠ "supervisor"
  · obtain ⟨r, hr⟩ := htr st.current st.prompt
    exact ⟨st.results ++ "\n" ++ r, by simp [if_pos hc, hr]⟩
  · exact ⟨st.results, by simp [if_neg hc]⟩

/-- The coerced candidate is `"FINISH"`, or it is a member of `list_of_tools`
not in the used tools. -/
theorem coerceNextTool_spec (cfg : SuiteConfig) (used : List String) (r : PolicyRes) :
    coerceNextTool cfg used r = "FINISH" ∨
      (coerceNextTool cfg used r ∈ listOfTools cfg ∧ coerceNextTool cfg used r ∉ used) := by
  cases r with
  | exn => exact Or.inl rfl
  | val t =>
    unfold coerceNextTool
    by_cases h : t ∉ listOfTools cfg ∨ t ∈ used
    · exact Or.inl (by simp [if_pos h])
    · push_neg at h
      exact Or.inr (by simp [h.1, h.2])

/-- Characterization of a successful supervisor step. -/
theorem supervisorStep_ok (cfg : SuiteConfig) (tr : String → String → Except String String)
    (pol : String → List String → List String → String → PolicyRes) (hasVec : Bool)
    {st : AgentState} {res : String} {used : List String}
    (hexec : execPhase tr st = .ok (res, used)) :
    ∃ st', supervisorStep cfg tr pol hasVec st = .ok st' ∧
      st'.prompt = st.prompt ∧ st'.results = res ∧ st'.used_tools = used ∧
      st'.next = st'.current ∧
      (st'.current = "FINISH" ∨ (st'.current ∈ listOfTools cfg ∧ st'.current ∉ used)) := by
  unfold supervisorStep
  rw [hexec]
  refine ⟨_, rfl, rfl, rfl, rfl, rfl, ?_⟩
  rcases coerceNextTool_spec cfg used (pol st.prompt used (listOfTools cfg) res) with h | h
  · cases hasVec <;> simp [h]
  · cases hasVec with
    | true => exact Or.inr (by simpa using h)
    | false =>
      by_cases hc : coerceNextTool cfg used (pol st.prompt used (listOfTools cfg) res) = st.current
      · simp [hc]
      · exact Or.inr (by simp only [Bool.false_eq_true, if_false, if_neg hc]; exact h)

theorem nodup_subset_length_le {l1 l2 : List String} (hnd : l1.Nodup)
    (hsub : ∀ x ∈ l1, x ∈ l2) : l1.length ≤ l2.length := by
  calc l1.length = l1.toFinset.card := (List.toFinset_card_of_nodup hnd).symm
    _ ≤ l2.toFinset.card :=
        Finset.card_le_card (fun x hx => List.mem_toFinset.mpr (hsub x (List.mem_toFinset.mp hx)))
    _ ≤ l2.length := List.toFinset_card_le l2

theorem runLoop_of_finish (cfg : SuiteConfig) (tr : String → String → Except String String)
    (pol : String → List String → List String → String → PolicyRes) (hasVec : Bool)
    (fuel : Nat) (st : AgentState) (h : st.current = "FINISH") :
    runLoop cfg tr pol hasVec fuel st = .ok st := by
  cases fuel with
  | zero => rfl
  | succ n => unfold runLoop; rw [if_pos h]

/-- Core termination invariant: from any state whose `current` is an unused
configured tool, the loop reaches `"FINISH"` once the fuel covers the number
of still-unused configured tools. -/
theorem runLoop_reaches_finish (cfg : SuiteConfig)
    (tr : String → String → Except String String)
    (pol : String → List String → List String → String → PolicyRes) (hasVec : Bool)
    (hsup : "supervisor" ∉ cfg.tool_list)
    (htr : ∀ t p, ∃ r, tr t p = .ok r) :
    ∀ fuel : Nat, ∀ st : AgentState, st.current ∈ cfg.tool_list →
      st.current ∉ st.used_tools →
      (∀ u ∈ st.used_tools, u ∈ cfg.tool_list) → st.used_tools.Nodup →
      cfg.tool_list.length - st.used_tools.length ≤ fuel →
      ∃ st', runLoop cfg tr pol hasVec fuel st = .ok st' ∧ st'.current = "FINISH" := by
  intro fuel
  induction fuel with
  | zero =>
    intro st hcur hnu hsub hnd hfuel
    exfalso
    have hlen : (st.used_tools ++ [st.current]).length ≤ cfg.tool_list.length := by
      refine nodup_subset_length_le ?_ ?_
      · simpa [List.nodup_append] using ⟨hnd, hnu⟩
      · intro x hx
        rcases List.mem_append.mp hx with hx | hx
        · exact hsub x hx
        · rcases List.mem_singleton.mp hx with rfl; exact hcur
    simp only [List.length_append, List.length_singleton] at hlen
    omega
  | succ n ih =>
    intro st hcur hnu hsub hnd hfuel
    by_cases hfin : st.current = "FINISH"
    · exact ⟨st, runLoop_of_finish cfg tr pol hasVec (n + 1) st hfin, hfin⟩
    · obtain ⟨res, hexec⟩ := execPhase_total htr st
      obtain ⟨st', hstep, _, _, hused, _, hcases⟩ :=
        supervisorStep_ok cfg tr pol hasVec hexec
      have hcs : st.current ≠ "supervisor" := fun h => hsup (h ▸ hcur)
      have hua : usedAfter st = st.used_tools ++ [st.current] := by
        unfold usedAfter; rw [if_pos hcs]
      rw [hua] at hused
      have hrun : runLoop cfg tr pol hasVec (n + 1) st =
          runLoop cfg tr pol hasVec n st' := by
        conv_lhs => rw [runLoop]
        rw [if_neg hfin, hstep]
      have hdone : st'.current = "FINISH" →
          ∃ st'', runLoop cfg tr pol hasVec (n + 1) st = .ok st'' ∧ st''.current = "FINISH" := by
        intro hf
        refine ⟨st', ?_, hf⟩
        rw [hrun]
        exact runLoop_of_finish cfg tr pol hasVec n st' hf
      by_cases hfin' : st'.current = "FINISH"
      · exact hdone hfin'
      · rcases hcases with hf | ⟨hmem, hnmem⟩
        · exact hdone hf
        · have hcur' : st'.current ∈ cfg.tool_list := by
            rcases List.mem_append.mp hmem with h | h
            · exact h
            · exact absurd (List.mem_singleton.mp h) hfin'
          have hnu' : st'.current ∉ st'.used_tools := by
            rw [hused, ← hua]; exact hnmem
          have hnd' : st'.used_tools.Nodup := by
            rw [hused]; simpa [List.nodup_append] using ⟨hnd, hnu⟩
          have hsub' : ∀ u ∈ st'.used_tools, u ∈ cfg.tool_list := by
            rw [hused]; intro u hu
            rcases List.mem_append.mp hu with hu | hu
            · exact hsub u hu
            · rcases List.mem_singleton.mp hu with rfl; exact hcur
          have hfuel' : cfg.tool_list.length - st'.used_tools.length ≤ n := by
            rw [hused]
            simp only [List.length_append, List.length_singleton]
            omega
          obtain ⟨st'', hr2, hf2⟩ := ih st' hcur' hnu' hsub' hnd' hfuel'
          exact ⟨st'', by rw [hrun]; exact hr2, hf2⟩

/-- The `current`/`next` value a successful supervisor step selects, spelled
out: the coerced policy candidate, with the plain-LLM branch's extra self-loop
check. -/
theorem supervisorStep_current (cfg : SuiteConfig) (tr : String → String → Except String String)
    (pol : String → List String → List String → String → PolicyRes) (hasVec : Bool)
    {st : AgentState} {res : String} {used : List String}
    (hexec : execPhase tr st = .ok (res, used)) :
    ∃ st', supervisorStep cfg tr pol hasVec st = .ok st' ∧ st'.next = st'.current ∧
      st'.current =
        (if hasVec then coerceNextTool cfg used (pol st.prompt used (listOfTools cfg) res)
         else if coerceNextTool cfg used (pol st.prompt used (listOfTools cfg) res) = st.current
           then "FINISH"
           else coerceNextTool cfg used (pol st.prompt used (listOfTools cfg) res)) := by
  unfold supervisorStep
  rw [hexec]
  exact ⟨_, rfl, rfl, rfl⟩

/-- Claim C1: for every finite configured tool set of size N and every
NextToolPolicy behavior (including a policy that always returns the same tool,
a used tool, or an invalid name, or that raises — `pol` is arbitrary), the
orchestration loop started from the seed state reaches `current = "FINISH"`
within at most N+1 supervisor evaluations.  `hsup` reflects that a tool list
containing `"supervisor"` cannot even build a workflow (`add_node` would
duplicate the supervisor node, src/suite.py lines 201-205); `htr` says tool
execution itself succeeds (a tool failure aborts the run and is outside the
policy quantification of this claim). -/
theorem C1_termination (cfg : SuiteConfig) (tr : String → String → Except String String)
    (pol : String → List String → List String → String → PolicyRes) (hasVec : Bool)
    (prompt : String)
    (hsup : "supervisor" ∉ cfg.tool_list)
    (htr : ∀ t p, ∃ r, tr t p = .ok r) :
    ∃ st', runLoop cfg tr pol hasVec (cfg.tool_list.length + 1) (initialState prompt) = .ok st' ∧
      st'.current = "FINISH" := by
  have hfin0 : (initialState prompt).current ≠ "FINISH" := by
    show ("supervisor" : String) ≠ "FINISH"
    decide
  obtain ⟨res, hexec⟩ := execPhase_total htr (initialState prompt)
  obtain ⟨st1, hstep, _, _, hused, _, hcases⟩ :=
    supervisorStep_ok cfg tr pol hasVec hexec
  have hua : usedAfter (initialState prompt) = [] := by
    unfold usedAfter initialState
    simp
  rw [hua] at hused hcases
  have hrun : runLoop cfg tr pol hasVec (cfg.tool_list.length + 1) (initialState prompt) =
      runLoop cfg tr pol hasVec cfg.tool_list.length st1 := by
    conv_lhs => rw [runLoop]
    rw [if_neg hfin0, hstep]
  by_cases hf1 : st1.current = "FINISH"
  · exact ⟨st1, by rw [hrun]; exact runLoop_of_finish cfg tr pol hasVec _ st1 hf1, hf1⟩
  · rcases hcases with hf | ⟨hmem, _⟩
    · exact absurd hf hf1
    · have hcur1 : st1.current ∈ cfg.tool_list := by
        rcases List.mem_append.mp hmem with h | h
        · exact h
        · exact absurd (List.mem_singleton.mp h) hf1
      obtain ⟨st2, h2, hf2⟩ := runLoop_reaches_finish cfg tr pol hasVec hsup htr
        cfg.tool_list.length st1 hcur1
        (by rw [hused]; exact List.not_mem_nil _)
        (by rw [hused]; intro u hu; cases hu)
        (by rw [hused]; exact List.nodup_nil)
        (by rw [hused]; simp)
      exact ⟨st2, by rw [hrun]; exact h2, hf2⟩

theorem C1_termination_witness :
    ("supervisor" ∉ ["nmap"]) ∧
    (∃ st', runLoop ⟨["nmap"]⟩ (fun _ _ => .ok "out") (fun _ _ _ _ => PolicyRes.val "nmap") true 2
      (initialState "task") = .ok st' ∧ st'.current = "FINISH") :=
  ⟨by decide,
   C1_termination ⟨["nmap"]⟩ (fun _ _ => .ok "out") (fun _ _ _ _ => PolicyRes.val "nmap") true
     "task" (by decide) (fun t p => ⟨"out", rfl⟩)⟩

/-- Claim C2: no-repeat invariant — after any supervisor step, the new
`current` is either `"FINISH"` or not a member of the state's `used_tools`
(the tool list accumulated through the step, src/suite.py lines 105, 149-150,
172-173), and any policy selection of a tool already in `used_tools` is
coerced to `"FINISH"`. -/
theorem C2_no_repeat (cfg : SuiteConfig) (tr : String → String → Except String String)
    (pol : String → List String → List String → String → PolicyRes) (hasVec : Bool)
    (st st' : AgentState) (res : String) (used : List String)
    (hexec : execPhase tr st = .ok (res, used))
    (hstep : supervisorStep cfg tr pol hasVec st = .ok st') :
    (st'.current = "FINISH" ∨ st'.current ∉ st'.used_tools) ∧
    (∀ t, pol st.prompt used (listOfTools cfg) res = PolicyRes.val t → t ∈ used →
      st'.current = "FINISH") := by
  obtain ⟨st'', hstep', _, _, hused, _, hcases⟩ :=
    supervisorStep_ok cfg tr pol hasVec hexec
  rw [hstep] at hstep'
  injection hstep' with h''
  subst h''
  constructor
  · rcases hcases with hf | ⟨_, hn⟩
    · exact Or.inl hf
    · exact Or.inr (by rw [hused]; exact hn)
  · intro t hp ht
    obtain ⟨s2, hs2, _, hcur2⟩ :=
      supervisorStep_current cfg tr pol hasVec hexec
    rw [hstep] at hs2
    injection hs2 with h2
    subst h2
    have hc : coerceNextTool cfg used (PolicyRes.val t) = "FINISH" := by
      simp only [coerceNextTool]
      rw [if_pos (Or.inr ht)]
    rw [hcur2, hp, hc]
    cases hasVec <;> simp

theorem C2_no_repeat_witness :
    ((⟨"p", "\no", ["nmap"], "FINISH", "FINISH"⟩ : AgentState).current = "FINISH" ∨
      (⟨"p", "\no", ["nmap"], "FINISH", "FINISH"⟩ : AgentState).current ∉
        (⟨"p", "\no", ["nmap"], "FINISH", "FINISH"⟩ : AgentState).used_tools) ∧
    (⟨"p", "\no", ["nmap"], "FINISH", "FINISH"⟩ : AgentState).current = "FINISH" :=
  ⟨(C2_no_repeat ⟨["nmap"]⟩ (fun _ _ => .ok "o") (fun _ _ _ _ => PolicyRes.val "nmap") true
      ⟨"p", "", [], "nmap", "nmap"⟩ ⟨"p", "\no", ["nmap"], "FINISH", "FINISH"⟩ "\no" ["nmap"]
      (by decide) (by decide)).1,
   (C2_no_repeat ⟨["nmap"]⟩ (fun _ _ => .ok "o") (fun _ _ _ _ => PolicyRes.val "nmap") true
      ⟨"p", "", [], "nmap", "nmap"⟩ ⟨"p", "\no", ["nmap"], "FINISH", "FINISH"⟩ "\no" ["nmap"]
      (by decide) (by decide)).2 "nmap" rfl (by decide)⟩

/-- Claim C3 (code bug): the run state is supposed to carry exactly the five
fields prompt, results, used_tools, current, next — `Suite.suite` (src/suite.py
lines 234-240) and `Suite.supervisor` (lines 185-191) construct `AgentState`
with exactly these five keyword arguments — but the `AgentState` dataclass of
src/_template.py lines 42-47 declares only four fields, without `used_tools`,
so the very first construction raises `TypeError: unexpected keyword argument`. -/
theorem C3_agentstate_fields_mismatch :
    "used_tools" ∈ suite_AgentState_kwargs ∧
    "used_tools" ∉ AgentState_dataclass_fields ∧
    AgentState_dataclass_fields.length = 4 ∧ suite_AgentState_kwargs.length = 5 := by
  decide

/-- Claim C7: a policy failure — the selection call raising (`PolicyRes.exn`),
or returning a value outside the configured tool list, or returning a value
already in `used_tools` — is never fatal: the supervisor step completes
normally (`Except.ok`) with both `current` and `next` coerced to `"FINISH"`
(src/suite.py lines 144-156 and 170-179). -/
theorem C7_policy_failure_nonfatal (cfg : SuiteConfig)
    (tr : String → String → Except String String)
    (pol : String → List String → List String → String → PolicyRes) (hasVec : Bool)
    (st : AgentState) (res : String) (used : List String)
    (hexec : execPhase tr st = .ok (res, used))
    (hfail : pol st.prompt used (listOfTools cfg) res = PolicyRes.exn ∨
      ∃ t, pol st.prompt used (listOfTools cfg) res = PolicyRes.val t ∧
        (t ∉ cfg.tool_list ∨ t ∈ used)) :
    ∃ st', supervisorStep cfg tr pol hasVec st = .ok st' ∧
      st'.current = "FINISH" ∧ st'.next = "FINISH" := by
  have hcand : coerceNextTool cfg used (pol st.prompt used (listOfTools cfg) res) = "FINISH" := by
    rcases hfail with he | ⟨t, ht, hbad⟩
    · rw [he]; rfl
    · rw [ht]
      simp only [coerceNextTool]
      by_cases hcond : t ∉ listOfTools cfg ∨ t ∈ used
      · rw [if_pos hcond]
      · rw [if_neg hcond]
        push_neg at hcond
        rcases hbad with hnl | hu
        · rcases List.mem_append.mp hcond.1 with h | h
          · exact absurd h hnl
          · exact List.mem_singleton.mp h
        · exact absurd hu hcond.2
  obtain ⟨st', hs, hnext, hcur⟩ :=
    supervisorStep_current cfg tr pol hasVec hexec
  refine ⟨st', hs, ?_, ?_⟩
  · rw [hcur, hcand]; cases hasVec <;> simp
  · rw [hnext, hcur, hcand]; cases hasVec <;> simp

theorem C7_policy_failure_nonfatal_witness :
    ∃ st', supervisorStep ⟨["nmap"]⟩ (fun _ _ => .ok "o") (fun _ _ _ _ => PolicyRes.val "zap")
      true ⟨"p", "", [], "supervisor", "supervisor"⟩ = .ok st' ∧
      st'.current = "FINISH" ∧ st'.next = "FINISH" :=
  C7_policy_failure_nonfatal ⟨["nmap"]⟩ (fun _ _ => .ok "o")
    (fun _ _ _ _ => PolicyRes.val "zap") true ⟨"p", "", [], "supervisor", "supervisor"⟩
    "" [] (by decide) (Or.inr ⟨"zap", rfl, Or.inl (by decide)⟩)

/-- Claim C8: self-loop guard — in a supervisor step in which a tool was just
executed (`current` is a tool name, not `"supervisor"`), a policy candidate
equal to that just-executed tool yields `"FINISH"`: the tool was appended to
`used_tools` (src/suite.py line 105) so the coercion of lines 149-150 /
172-173 fires (and in the plain-LLM branch the explicit check of lines 182-183
fires as well). -/
theorem C8_self_loop_guard (cfg : SuiteConfig) (tr : String → String → Except String String)
    (pol : String → List String → List String → String → PolicyRes) (hasVec : Bool)
    (st : AgentState) (res : String) (used : List String)
    (hcur : st.current ≠ "supervisor")
    (hexec : execPhase tr st = .ok (res, used))
    (hpol : pol st.prompt used (listOfTools cfg) res = PolicyRes.val st.current) :
    ∃ st', supervisorStep cfg tr pol hasVec st = .ok st' ∧ st'.current = "FINISH" := by
  have hu : used = usedAfter st := execPhase_ok_used hexec
  have hmem : st.current ∈ used := by
    rw [hu]
    unfold usedAfter
    rw [if_pos hcur]
    simp
  obtain ⟨st', hs, _, hcur'⟩ :=
    supervisorStep_current cfg tr pol hasVec hexec
  have hcand : coerceNextTool cfg used (pol st.prompt used (listOfTools cfg) res) = "FINISH" := by
    rw [hpol]
    simp only [coerceNextTool]
    rw [if_pos (Or.inr hmem)]
  exact ⟨st', hs, by rw [hcur', hcand]; cases hasVec <;> simp⟩

theorem C8_self_loop_guard_witness :
    ∃ st', supervisorStep ⟨["nmap"]⟩ (fun _ _ => .ok "o") (fun _ _ _ _ => PolicyRes.val "nmap")
      true ⟨"p", "", [], "nmap", "nmap"⟩ = .ok st' ∧ st'.current = "FINISH" :=
  C8_self_loop_guard ⟨["nmap"]⟩ (fun _ _ => .ok "o") (fun _ _ _ _ => PolicyRes.val "nmap") true
    ⟨"p", "", [], "nmap", "nmap"⟩ "\no" ["nmap"] (by decide) (by decide) (by decide)

/-! ### Part 2: knowledge-graph ingestion engine (src/threatmap.py)

The Neo4j store is modelled as an explicit list of labelled nodes and a list
of typed edges between node indices.  The two Cypher query shapes built by
`ThreatMap.create_relationship` (lines 103-117) are given their `MATCH`/`MERGE`
semantics: a `MERGE` on a node pattern matches the first node carrying the
label and all the pattern's property values (a pattern value of `null` never
matches, as in Cypher) or appends a fresh node; a `MERGE` on a bound relationship
pattern matches the first edge with the given endpoints and type or appends a
fresh edge; `SET b = props` replaces a node's whole property map.  Where Cypher
would operate on every row of a multi-row match, the model takes the first
match — the schema's uniqueness constraints make the natural keys unique in
the intended runs.  Python `datetime.now()` / Cypher `datetime()` are one
abstract clock value `now : Nat` per ingestion call; floats (`cvss`) are
abstracted to integers, which preserves the only two things the code uses of
them: Python truthiness and display. -/

/-- A property value as stored in the graph (string, number, boolean, null or
timestamp). -/
inductive PropValue where
  | pvStr (s : String)
  | pvInt (n : Int)
  | pvBool (b : Bool)
  | pvNull
  | pvDate (t : Nat)
deriving DecidableEq, Repr

/-- Python truthiness of a value as `ThreatMap.get_kg_data` tests it with
`if not record[...]` / `x or default`: empty string, zero, False and null are
falsy. -/
def PropValue.isFalsy : PropValue → Prop
  | .pvStr s => s = ""
  | .pvInt n => n = 0
  | .pvBool b => b = false
  | .pvNull => True
  | .pvDate _ => False

instance : (v : PropValue) → Decidable v.isFalsy
  | .pvStr s => inferInstanceAs (Decidable (s = ""))
  | .pvInt n => inferInstanceAs (Decidable (n = 0))
  | .pvBool b => inferInstanceAs (Decidable (b = false))
  | .pvNull => .isTrue trivial
  | .pvDate _ => .isFalse id

/-- Rendering of a value inside an f-string, as Python would print it
(timestamps print through an abstract tag — no claim depends on their text). -/
def PropValue.render : PropValue → String
  | .pvStr s => s
  | .pvInt n => toString n
  | .pvBool b => if b then "True" else "False"
  | .pvNull => "None"
  | .pvDate t => "datetime-" ++ toString t

/-- A property map (Python dict / Cypher property map, in insertion order). -/
abbrev Props := List (String × PropValue)

/-- Key lookup in an association list (Python `dict[k]` / Cypher `n.k`). -/
def assocLookup {α : Type} : List (String × α) → String → Option α
  | [], _ => none
  | (k', v) :: rest, k => if k' = k then some v else assocLookup rest k

/-- `dict` assignment of one key (replace if present, append otherwise). -/
def setProp : Props → String → PropValue → Props
  | [], k, v => [(k, v)]
  | (k', v') :: rest, k, v =>
    if k' = k then (k', v) :: rest else (k', v') :: setProp rest k v

/-- Python `dict.update` (left dict updated with every key of the right). -/
def updateProps (ps new : Props) : Props :=
  new.foldl (fun acc kv => setProp acc kv.1 kv.2) ps

/-- Cypher property-pattern match: every pattern entry is present with the
same value; a `null` pattern value matches nothing. -/
def propsMatch (pat ps : Props) : Prop :=
  ∀ kv ∈ pat, kv.2 ≠ PropValue.pvNull ∧ assocLookup ps kv.1 = some kv.2

instance (pat ps : Props) : Decidable (propsMatch pat ps) :=
  List.decidableBAll _ pat

/-- A labelled node of the property graph. -/
structure GNode where
  label : String
  props : Props
deriving DecidableEq, Repr

/-- A typed edge of the property graph, by node indices. -/
structure GEdge where
  src : Nat
  dst : Nat
  relType : String
  props : Props
deriving DecidableEq, Repr

/-- The property-graph store. -/
structure GraphState where
  nodes : List GNode
  edges : List GEdge
deriving DecidableEq, Repr

/-- The empty store (as left by `init_schema`'s `MATCH (n) DETACH DELETE n`,
src/threatmap.py line 55). -/
def GraphState.empty : GraphState := ⟨[], []⟩

/-- First node (by index) with the given label whose properties match the
pattern. -/
def findNodeFrom (label : String) (pat : Props) : List GNode → Nat → Option Nat
  | [], _ => none
  | n :: rest, i =>
    if n.label = label ∧ propsMatch pat n.props then some i
    else findNodeFrom label pat rest (i + 1)

/-- Cypher `MATCH (a:label pat)`, first row. -/
def findNode (g : GraphState) (label : String) (pat : Props) : Option Nat :=
  findNodeFrom label pat g.nodes 0

/-- Cypher `MERGE (a:label pat)`: match or append a node carrying exactly the
pattern. -/
def mergeNode (g : GraphState) (label : String) (pat : Props) : GraphState × Nat :=
  match findNode g label pat with
  | some i => (g, i)
  | none => ({ g with nodes := g.nodes ++ [⟨label, pat⟩] }, g.nodes.length)

/-- Does edge `e`'s destination exist and carry label `lbl` with properties
matching `pat`? -/
def edgeDstMatches (nodes : List GNode) (e : GEdge) (lbl : String) (pat : Props) : Prop :=
  ∃ n, nodes.get? e.dst = some n ∧ n.label = lbl ∧ propsMatch pat n.props

instance (nodes : List GNode) (e : GEdge) (lbl : String) (pat : Props) :
    Decidable (edgeDstMatches nodes e lbl pat) :=
  match h : nodes.get? e.dst with
  | some n =>
    decidable_of_iff (n.label = lbl ∧ propsMatch pat n.props)
      ⟨fun hp => ⟨n, h, hp⟩, fun ⟨n', hn', hp⟩ => by
        rw [h] at hn'; cases hn'; exact hp⟩
  | none => isFalse (fun ⟨n', hn', _⟩ => by rw [h] at hn'; cases hn')

/-- First edge (with its index) leaving node `a` with type `rt` into a node
matching `(lbl, pat)` — the pattern of
`MERGE (a)-[r:rt]->(b:lbl {number: n})` with `a` bound. -/
def findRelPatternFrom (nodes : List GNode) (a : Nat) (rt lbl : String) (pat : Props) :
    List GEdge → Nat → Option (Nat × GEdge)
  | [], _ => none
  | e :: rest, i =>
    if e.src = a ∧ e.relType = rt ∧ edgeDstMatches nodes e lbl pat then some (i, e)
    else findRelPatternFrom nodes a rt lbl pat rest (i + 1)

def findRelPattern (g : GraphState) (a : Nat) (rt lbl : String) (pat : Props) :
    Option (Nat × GEdge) :=
  findRelPatternFrom g.nodes a rt lbl pat g.edges 0

/-- First edge between two bound endpoints with the given type — the pattern
of `MERGE (a)-[r:rt]->(b)` with both `a` and `b` bound. -/
def findEdgeAB (g : GraphState) (a : Nat) (rt : String) (b : Nat) : Option Nat :=
  go g.edges 0
where
  go : List GEdge → Nat → Option Nat
    | [], _ => none
    | e :: rest, i =>
      if e.src = a ∧ e.relType = rt ∧ e.dst = b then some i else go rest (i + 1)

/-- One relationship entry of the schema file: `{"type": ..., "default_props":
..., "index_prop": ...}` (src/threatmap.py lines 91-92, 94). -/
structure RelInfo where
  type : String
  default_props : Props
  index_prop : String
deriving DecidableEq, Repr

/-- One label entry of `schema_mapping`. -/
structure SchemaEntry where
  constraints : List String
  relationships : List (String × RelInfo)
deriving DecidableEq, Repr

/-- `self.schema_mapping` (src/threatmap.py line 25). -/
abbrev Schema := List (String × SchemaEntry)

/-- A `from_node`/`to_node` argument of `create_relationship`: a label and a
property dict. -/
structure NodeSpec where
  label : String
  properties : Props
deriving DecidableEq, Repr

/-- `ThreatMap.create_relationship` (src/threatmap.py lines 84-120): validate
the label pair against the schema (lines 88-89, raising `ValueError` — the
`Except.error` — on an undeclared pair); build the edge property dict from the
schema defaults, the caller's properties and the two timestamps (lines 94-101);
then run one of the two query shapes.  For a `Port` target (lines 104-110):
`MATCH` the from-node (no row → the query does nothing), `MERGE` the
relationship pattern on the port `number` alone, `ON CREATE SET b = to_props,
r = props`, `ON MATCH SET b = to_props, r.last_seen = datetime()`.  Otherwise
(lines 111-117): `MERGE` both endpoint nodes, `MERGE` the edge, `ON CREATE SET
r = props` — and no `ON MATCH` clause. -/
def create_relationship (schema : Schema) (now : Nat) (from_node to_node : NodeSpec)
    (properties : Props) (g : GraphState) : Except String GraphState :=
  match assocLookup schema from_node.label with
  | none => .error ("Invalid relationship: " ++ from_node.label ++ " -> " ++ to_node.label)
  | some schemaEntry =>
    match assocLookup schemaEntry.relationships to_node.label with
    | none => .error ("Invalid relationship: " ++ from_node.label ++ " -> " ++ to_node.label)
    | some rel_info =>
      let props := updateProps (updateProps rel_info.default_props properties)
        [("created_at", .pvDate now), ("last_seen", .pvDate now)]
      if to_node.label = "Port" then
        match findNode g from_node.label from_node.properties with
        | none => .ok g
        | some a =>
          let numberPat : Props :=
            [("number", (assocLookup to_node.properties "number").getD .pvNull)]
          match findRelPattern g a rel_info.type "Port" numberPat with
          | some (ei, e) =>
            .ok { nodes := g.nodes.set e.dst ⟨"Port", to_node.properties⟩,
                  edges := g.edges.set ei
                    { e with props := setProp e.props "last_seen" (.pvDate now) } }
          | none =>
            .ok { nodes := g.nodes ++ [⟨"Port", to_node.properties⟩],
                  edges := g.edges ++ [⟨a, g.nodes.length, rel_info.type, props⟩] }
      else
        let m1 := mergeNode g from_node.label from_node.properties
        let m2 := mergeNode m1.1 to_node.label to_node.properties
        match findEdgeAB m2.1 m1.2 rel_info.type m2.2 with
        | some _ => .ok m2.1
        | none => .ok { m2.1 with edges := m2.1.edges ++ [⟨m1.2, m2.2, rel_info.type, props⟩] }

/-- The `Service` shape of src/_template.py lines 12-14. -/
structure Service where
  name : String
  version : String
deriving DecidableEq, Repr

/-- The `Vulnerability` shape of src/_template.py lines 6-10; `cve_id` is
`NotRequired`, so `none` models an absent key (and `some ""` a present empty
one). -/
structure Vulnerability where
  cve_id : Option String
  description : String
  cvss : Int
  is_vulnerable : Bool
deriving DecidableEq, Repr

/-- The `Port` shape of src/_template.py lines 16-20. -/
structure Port where
  port : Int
  protocol : String
  service : Service
  vulnerabilities : List Vulnerability
deriving DecidableEq, Repr

/-- The `ScanResult` shape of src/_template.py lines 22-25 — the ScanRecord
handed to `ThreatMap.add_entity`. -/
structure ScanResult where
  host : String
  ip : String
  ports : List Port
deriving DecidableEq, Repr

/-- The port property dict built at src/threatmap.py lines 133-137. -/
def port_properties (ip : String) (p : Port) : Props :=
  [("number", .pvInt p.port), ("protocol", .pvStr p.protocol), ("ip_address", .pvStr ip)]

/-- The service property dict built at src/threatmap.py lines 146-149. -/
def service_data (s : Service) : Props :=
  [("name", .pvStr s.name), ("version", .pvStr s.version)]

/-- The vulnerability property dict built at src/threatmap.py lines 159-165:
`cve_id` is added only when `vuln.get("cve_id")` is truthy. -/
def vuln_data (v : Vulnerability) : Props :=
  let base : Props := [("description", .pvStr v.description), ("cvss", .pvInt v.cvss),
    ("is_vulnerable", .pvBool v.is_vulnerable)]
  match v.cve_id with
  | some s => if s ≠ "" then base ++ [("cve_id", .pvStr s)] else base
  | none => base

/-- The vulnerability loop of `ThreatMap.add_entity` (src/threatmap.py lines
157-171).  A raised `ValueError` propagates — `add_entity` has no handler — so
the first failure stops the remaining upserts; the graph committed so far is
kept (each query ran in its own session). -/
def ingestVulns (schema : Schema) (now : Nat) (sdata : Props) :
    List Vulnerability → GraphState → GraphState × Option String
  | [], g => (g, none)
  | v :: rest, g =>
    match create_relationship schema now ⟨"Service", sdata⟩ ⟨"Vulnerability", vuln_data v⟩ [] g with
    | .error e => (g, some e)
    | .ok g' => ingestVulns schema now sdata rest g'

/-- The port loop of `ThreatMap.add_entity` (src/threatmap.py lines 131-171):
IPAddress→Port, then Port→Service, then the vulnerability loop. -/
def ingestPorts (schema : Schema) (now : Nat) (ip : String) :
    List Port → GraphState → GraphState × Option String
  | [], g => (g, none)
  | p :: rest, g =>
    match create_relationship schema now ⟨"IPAddress", [("address", .pvStr ip)]⟩
        ⟨"Port", port_properties ip p⟩ [] g with
    | .error e => (g, some e)
    | .ok g1 =>
      match create_relationship schema now ⟨"Port", port_properties ip p⟩
          ⟨"Service", service_data p.service⟩ [] g1 with
      | .error e => (g1, some e)
      | .ok g2 =>
        match ingestVulns schema now (service_data p.service) p.vulnerabilities g2 with
        | (g3, none) => ingestPorts schema now ip rest g3
        | (g3, some e) => (g3, some e)

/-- `ThreatMap.add_entity` (src/threatmap.py lines 122-171): the Host→IPAddress
upsert only when both `host` and `ip` are non-empty (line 124), then the port
loop.  Returns the final store state plus the first raised error, if any (the
error aborts everything after it; committed upserts stay). -/
def add_entity (schema : Schema) (now : Nat) (scan : ScanResult) (g : GraphState) :
    GraphState × Option String :=
  if scan.host ≠ "" ∧ scan.ip ≠ "" then
    match create_relationship schema now ⟨"Host", [("name", .pvStr scan.host)]⟩
        ⟨"IPAddress", [("address", .pvStr scan.ip)]⟩ [] g with
    | .error e => (g, some e)
    | .ok g' => ingestPorts schema now scan.ip scan.ports g'
  else
    ingestPorts schema now scan.ip scan.ports g

/-- Modelled from the spec: the threat-map schema configuration file (the
`threat_map_config` JSON handed to `ThreatMap.__init__`) is not part of src/.
This concrete instance follows the spec's data model and GraphSchema file
shape: labels Host, IPAddress, Port, Service, Vulnerability; edges
Host-RESOLVES_TO→IPAddress, IPAddress-HOSTS→Port, Port-RUNS→Service,
Service-HAS_VULNERABILITY→Vulnerability; default edge properties matching the
documented defaults (resolution_type "A", port status "open", service status
"running"). -/
def schema0 : Schema :=
  [("Host",
    { constraints := ["name"],
      relationships := [("IPAddress",
        { type := "RESOLVES_TO",
          default_props := [("resolution_type", .pvStr "A")],
          index_prop := "last_seen" })] }),
   ("IPAddress",
    { constraints := ["address"],
      relationships := [("Port",
        { type := "HOSTS",
          default_props := [("status", .pvStr "open")],
          index_prop := "last_seen" })] }),
   ("Port",
    { constraints := [],
      relationships := [("Service",
        { type := "RUNS",
          default_props := [("status", .pvStr "running")],
          index_prop := "last_seen" })] }),
   ("Service",
    { constraints := ["name", "version"],
      relationships := [("Vulnerability",
        { type := "HAS_VULNERABILITY",
          default_props := [],
          index_prop := "last_seen" })] }),
   ("Vulnerability",
    { constraints := ["description", "cve_id"],
      relationships := [] })]

/-- Cypher `n.k`: a missing property reads as null. -/
def getProp (ps : Props) (k : String) : PropValue :=
  (assocLookup ps k).getD .pvNull

/-- The row returned by the Host→IP query of `ThreatMap.get_kg_data`
(src/threatmap.py lines 178-184): aliases host, ip, last_seen,
resolution_type. -/
structure HostIPRow where
  host : PropValue
  ip : PropValue
  last_seen : PropValue
  resolution_type : PropValue
deriving DecidableEq, Repr

/-- The row returned by the IP→Port query (lines 198-203): aliases ip, port,
protocol, status, last_seen. -/
structure IpPortRow where
  ip : PropValue
  port : PropValue
  protocol : PropValue
  status : PropValue
  last_seen : PropValue
deriving DecidableEq, Repr

/-- The row returned by the Port→Service query (lines 218-223): aliases port,
ip, service, version, status. -/
structure PortServiceRow where
  port : PropValue
  ip : PropValue
  service : PropValue
  version : PropValue
  status : PropValue
deriving DecidableEq, Repr

/-- The row returned by the Service→Vulnerability query (lines 239-247):
aliases service, version, description, cvss, cve_id, detection_time,
is_vulnerable. -/
structure ServiceVulnRow where
  service : PropValue
  version : PropValue
  description : PropValue
  cvss : PropValue
  cve_id : PropValue
  detection_time : PropValue
  is_vulnerable : PropValue
deriving DecidableEq, Repr

/-- `MATCH (h:Host)-[r:RESOLVES_TO]->(ip:IPAddress) WHERE h.name IS NOT NULL
AND ip.address IS NOT NULL` applied to one edge: its returned row, if the edge
matches. -/
def hostIPRow (nodes : List GNode) (e : GEdge) : Option HostIPRow :=
  match nodes.get? e.src, nodes.get? e.dst with
  | some h, some ip =>
    if h.label = "Host" ∧ ip.label = "IPAddress" ∧ e.relType = "RESOLVES_TO" ∧
        getProp h.props "name" ≠ .pvNull ∧ getProp ip.props "address" ≠ .pvNull then
      some ⟨getProp h.props "name", getProp ip.props "address",
        getProp e.props "last_seen", getProp e.props "resolution_type"⟩
    else none
  | _, _ => none

/-- `MATCH (ip:IPAddress)-[r:HOSTS]->(p:Port) WHERE ip.address IS NOT NULL`
applied to one edge. -/
def ipPortRow (nodes : List GNode) (e : GEdge) : Option IpPortRow :=
  match nodes.get? e.src, nodes.get? e.dst with
  | some ip, some p =>
    if ip.label = "IPAddress" ∧ p.label = "Port" ∧ e.relType = "HOSTS" ∧
        getProp ip.props "address" ≠ .pvNull then
      some ⟨getProp ip.props "address", getProp p.props "number",
        getProp p.props "protocol", getProp e.props "status", getProp e.props "last_seen"⟩
    else none
  | _, _ => none

/-- `MATCH (p:Port)-[r:RUNS]->(s:Service) WHERE s.name IS NOT NULL AND
s.version IS NOT NULL` applied to one edge. -/
def portServiceRow (nodes : List GNode) (e : GEdge) : Option PortServiceRow :=
  match nodes.get? e.src, nodes.get? e.dst with
  | some p, some s =>
    if p.label = "Port" ∧ s.label = "Service" ∧ e.relType = "RUNS" ∧
        getProp s.props "name" ≠ .pvNull ∧ getProp s.props "version" ≠ .pvNull then
      some ⟨getProp p.props "number", getProp p.props "ip_address",
        getProp s.props "name", getProp s.props "version", getProp e.props "status"⟩
    else none
  | _, _ => none

/-- `MATCH (s:Service)-[r:HAS_VULNERABILITY]->(v:Vulnerability) WHERE s.name IS
NOT NULL AND s.version IS NOT NULL AND v.description IS NOT NULL AND v.cve_id
IS NOT NULL` applied to one edge. -/
def serviceVulnRow (nodes : List GNode) (e : GEdge) : Option ServiceVulnRow :=
  match nodes.get? e.src, nodes.get? e.dst with
  | some s, some v =>
    if s.label = "Service" ∧ v.label = "Vulnerability" ∧ e.relType = "HAS_VULNERABILITY" ∧
        getProp s.props "name" ≠ .pvNull ∧ getProp s.props "version" ≠ .pvNull ∧
        getProp v.props "description" ≠ .pvNull ∧ getProp v.props "cve_id" ≠ .pvNull then
      some ⟨getProp s.props "name", getProp s.props "version",
        getProp v.props "description", getProp v.props "cvss", getProp v.props "cve_id",
        getProp e.props "detection_time", getProp e.props "is_vulnerable"⟩
    else none
  | _, _ => none

/-- The description line of src/threatmap.py lines 190-193, with the `or 'A'`
default of line 189. -/
def hostIPDescription (r : HostIPRow) : String :=
  "Host " ++ r.host.render ++ " RESOLVES_TO IP address " ++ r.ip.render ++ " (type: " ++
    (if r.resolution_type.isFalsy then "A" else r.resolution_type.render) ++
    ", last seen: " ++ r.last_seen.render ++ ")"

/-- The description line of lines 209-213, with the `or 'open'` default of
line 208 and the conditional `/protocol` suffix. -/
def ipPortDescription (r : IpPortRow) : String :=
  "IP " ++ r.ip.render ++ " HOSTS port " ++ r.port.render ++
    (if r.protocol.isFalsy then "" else "/" ++ r.protocol.render) ++ " (status: " ++
    (if r.status.isFalsy then "open" else r.status.render) ++ ")"

/-- The description line of lines 229-234, with the `or 'running'` default of
line 228 and the conditional ` on {ip}` infix. -/
def portServiceDescription (r : PortServiceRow) : String :=
  "Port " ++ r.port.render ++ (if r.ip.isFalsy then "" else " on " ++ r.ip.render) ++
    " RUNS " ++ r.service.render ++ " version " ++ r.version.render ++ " (status: " ++
    (if r.status.isFalsy then "running" else r.status.render) ++ ")"

/-- The description line of lines 252-257, with the `'N/A'` / `'unknown'`
fallbacks. -/
def serviceVulnDescription (r : ServiceVulnRow) : String :=
  "Service " ++ r.service.render ++ " (version " ++ r.version.render ++
    ") HAS_VULNERABILITY " ++ r.cve_id.render ++ ": " ++ r.description.render ++
    " (CVSS: " ++ (if r.cvss.isFalsy then "N/A" else r.cvss.render) ++
    ", detected: " ++ (if r.detection_time.isFalsy then "unknown" else r.detection_time.render) ++ ")"

/-- The record-level skip of lines 187-188 (`if not record['host'] or not
record['ip']: continue`). -/
def hostIPSkip (r : HostIPRow) : Prop := r.host.isFalsy ∨ r.ip.isFalsy

instance (r : HostIPRow) : Decidable (hostIPSkip r) := inferInstanceAs (Decidable (_ ∨ _))

/-- The record-level skip of lines 206-207. -/
def ipPortSkip (r : IpPortRow) : Prop := r.ip.isFalsy ∨ r.port.isFalsy

instance (r : IpPortRow) : Decidable (ipPortSkip r) := inferInstanceAs (Decidable (_ ∨ _))

/-- The record-level skip of lines 226-227. -/
def portServiceSkip (r : PortServiceRow) : Prop := r.service.isFalsy ∨ r.version.isFalsy

instance (r : PortServiceRow) : Decidable (portServiceSkip r) :=
  inferInstanceAs (Decidable (_ ∨ _))

/-- The record-level skip of lines 250-251. -/
def serviceVulnSkip (r : ServiceVulnRow) : Prop :=
  r.service.isFalsy ∨ r.description.isFalsy ∨ r.cve_id.isFalsy

instance (r : ServiceVulnRow) : Decidable (serviceVulnSkip r) :=
  inferInstanceAs (Decidable (_ ∨ _ ∨ _))

/-- The Host→IP loop of `ThreatMap.get_kg_data` (lines 185-195): one
description per returned row, skipping per lines 187-188.  (The `except
KeyError` arms of the source are dead code: every `RETURN` alias is always
present on a returned record.) -/
def hostIPSection (g : GraphState) : List String :=
  g.edges.filterMap (fun e =>
    match hostIPRow g.nodes e with
    | some r => if hostIPSkip r then none else some (hostIPDescription r)
    | none => none)

/-- The IP→Port loop (lines 204-215). -/
def ipPortSection (g : GraphState) : List String :=
  g.edges.filterMap (fun e =>
    match ipPortRow g.nodes e with
    | some r => if ipPortSkip r then none else some (ipPortDescription r)
    | none => none)

/-- The Port→Service loop (lines 224-236). -/
def portServiceSection (g : GraphState) : List String :=
  g.edges.filterMap (fun e =>
    match portServiceRow g.nodes e with
    | some r => if portServiceSkip r then none else some (portServiceDescription r)
    | none => none)

/-- The Service→Vulnerability loop (lines 248-259). -/
def serviceVulnSection (g : GraphState) : List String :=
  g.edges.filterMap (fun e =>
    match serviceVulnRow g.nodes e with
    | some r => if serviceVulnSkip r then none else some (serviceVulnDescription r)
    | none => none)

/-- `ThreatMap.get_kg_data` (src/threatmap.py lines 172-267): the four query
loops in their fixed order appending into `descriptions`, the sentinel of
lines 264-265 when `descriptions` stayed empty, else `"\n".join(...)`
(line 267). -/
def get_kg_data (g : GraphState) : String :=
  let descriptions :=
    hostIPSection g ++ ipPortSection g ++ portServiceSection g ++ serviceVulnSection g
  if descriptions = [] then "No valid relationships found in the graph."
  else String.intercalate "\n" descriptions

/-- The matched rows of the Host→IP query over the whole store (every edge the
query pattern and `WHERE` clause accept, before any record-level skip). -/
def matchedHostIP (g : GraphState) : List HostIPRow :=
  g.edges.filterMap (hostIPRow g.nodes)

/-- The matched rows of the IP→Port query. -/
def matchedIpPort (g : GraphState) : List IpPortRow :=
  g.edges.filterMap (ipPortRow g.nodes)

/-- The matched rows of the Port→Service query. -/
def matchedPortService (g : GraphState) : List PortServiceRow :=
  g.edges.filterMap (portServiceRow g.nodes)

/-- The matched rows of the Service→Vulnerability query. -/
def matchedServiceVuln (g : GraphState) : List ServiceVulnRow :=
  g.edges.filterMap (serviceVulnRow g.nodes)

/-- The summarizer as the (amended) specification sentence describes it: take
the matched edges of the four queries in the fixed order Host→IP, IP→Port,
Port→Service, Service→Vulnerability; exclude every matched edge whose required
descriptive properties are falsy (null/missing, empty string, or zero);
render one description line per remaining edge, substituting the documented
defaults for absent optional fields; join the lines with newlines; return the
fixed sentinel string exactly when no description line was produced. -/
def summarize_spec (g : GraphState) : String :=
  let lines :=
    ((matchedHostIP g).filter (fun r => decide ¬ hostIPSkip r)).map hostIPDescription ++
    ((matchedIpPort g).filter (fun r => decide ¬ ipPortSkip r)).map ipPortDescription ++
    ((matchedPortService g).filter (fun r => decide ¬ portServiceSkip r)).map
      portServiceDescription ++
    ((matchedServiceVuln g).filter (fun r => decide ¬ serviceVulnSkip r)).map
      serviceVulnDescription
  if lines = [] then "No valid relationships found in the graph."
  else String.intercalate "\n" lines

/-- A one-port, one-vulnerability ScanRecord with arbitrary field values. -/
def oneVulnRecord (h i : String) (pn : Int) (pr sn sv d : String) (c : Int) (b : Bool)
    (cve : Option String) : ScanResult :=
  ⟨h, i, [⟨pn, pr, ⟨sn, sv⟩, [⟨cve, d, c, b⟩]⟩]⟩

/-- Ingesting a record into the freshly initialized (empty) store under the
modelled schema at time `t`. -/
def firstIngest (r : ScanResult) (t : Nat) : GraphState × Option String :=
  add_entity schema0 t r GraphState.empty

/-- Re-ingesting the same record at a later time `t2` into the store produced
by `firstIngest`. -/
def secondIngest (r : ScanResult) (t1 t2 : Nat) : GraphState × Option String :=
  add_entity schema0 t2 r (firstIngest r t1).1

/-- The spec §8 end-to-end example record. -/
def exampleRecord : ScanResult :=
  oneVulnRecord "example.com" "10.0.0.5" 80 "tcp" "nginx" "1.21" "outdated TLS config" 7 true
    (some "CVE-2021-1234")

/-- The merge corner for claim C10: one port carrying a CVE-bearing
vulnerability followed by a cve-less vulnerability with the same description,
cvss and is_vulnerable.  The second upsert\'s
`MERGE (b:Vulnerability {description, cvss, is_vulnerable})` pattern is a
subset filter, so it matches — and merges onto — the node that already carries
`cve_id = "CVE-X"`. -/
def mergedCveRecord : ScanResult :=
  ⟨"example.com", "10.0.0.5",
   [⟨80, "tcp", ⟨"nginx", "1.21"⟩,
     [⟨some "CVE-X", "d", 7, true⟩, ⟨none, "d", 7, true⟩]⟩]⟩

/-- Claim C10 counterexample: a vulnerability ingested without a `cve_id` is
NOT always absent from the summarizer\'s output: when its property pattern
merges onto an already-present cve-bearing Vulnerability node, the resulting
single node and edge ARE rendered (here as CVE-X), so the cve-less ingest is
visible through that node. -/
theorem C10_counterexample :
    (firstIngest mergedCveRecord 0).2 = none ∧
    (firstIngest mergedCveRecord 0).1.nodes.map (fun n => n.label) =
      ["Host", "IPAddress", "Port", "Service", "Vulnerability"] ∧
    (firstIngest mergedCveRecord 0).1.edges.map (fun e => e.relType) =
      ["RESOLVES_TO", "HOSTS", "RUNS", "HAS_VULNERABILITY"] ∧
    serviceVulnSection (firstIngest mergedCveRecord 0).1 =
      ["Service nginx (version 1.21) HAS_VULNERABILITY CVE-X: d (CVSS: 7, detected: unknown)"] := by
  decide

/-- A one-port record whose single vulnerability has no `cve_id`, ingested
into the fresh store: its Vulnerability node is created without the property. -/
def noCveRecord : ScanResult :=
  oneVulnRecord "example.com" "10.0.0.5" 80 "tcp" "nginx" "1.21" "outdated TLS config" 7 true
    none

/-- Claim C10 (amended): every HAS_VULNERABILITY edge whose Vulnerability node
carries no `cve_id` property (or a null one) matches no row of the
Service→Vulnerability query — its `WHERE` clause requires `v.cve_id IS NOT
NULL` (src/threatmap.py line 242; the per-record skip of line 250 guards the
same field) — and contributes no description line, wherever the edge sits in
the store; and such edges do arise: a cve-less vulnerability that does not
merge onto an existing cve-bearing node (e.g. on a fresh store) creates a
node without the property, so its edge exists yet is silently absent from the
output. -/
theorem C10_missing_cve_id_invisible (nodes : List GNode) (l1 l2 : List GEdge) (e : GEdge)
    (v : GNode) (hv : nodes.get? e.dst = some v)
    (hcve : assocLookup v.props "cve_id" = none ∨
      assocLookup v.props "cve_id" = some PropValue.pvNull) :
    serviceVulnRow nodes e = none ∧
    matchedServiceVuln ⟨nodes, l1 ++ e :: l2⟩ = matchedServiceVuln ⟨nodes, l1 ++ l2⟩ ∧
    serviceVulnSection ⟨nodes, l1 ++ e :: l2⟩ = serviceVulnSection ⟨nodes, l1 ++ l2⟩ ∧
    (firstIngest noCveRecord 0).2 = none ∧
    (firstIngest noCveRecord 0).1.nodes.map (fun n => (n.label, assocLookup n.props "cve_id")) =
      [("Host", none), ("IPAddress", none), ("Port", none), ("Service", none),
       ("Vulnerability", none)] ∧
    (firstIngest noCveRecord 0).1.edges.map (fun ed => ed.relType) =
      ["RESOLVES_TO", "HOSTS", "RUNS", "HAS_VULNERABILITY"] ∧
    serviceVulnSection (firstIngest noCveRecord 0).1 = [] := by
  have hgp : getProp v.props "cve_id" = PropValue.pvNull := by
    unfold getProp
    rcases hcve with h | h <;> rw [h] <;> rfl
  have hrow : serviceVulnRow nodes e = none := by
    cases hsrc : nodes.get? e.src with
    | none => simp only [serviceVulnRow, hsrc, hv]
    | some s =>
      have hnc : ¬(s.label = "Service" ∧ v.label = "Vulnerability" ∧
          e.relType = "HAS_VULNERABILITY" ∧ getProp s.props "name" ≠ PropValue.pvNull ∧
          getProp s.props "version" ≠ PropValue.pvNull ∧
          getProp v.props "description" ≠ PropValue.pvNull ∧
          getProp v.props "cve_id" ≠ PropValue.pvNull) :=
        fun hc => hc.2.2.2.2.2.2 hgp
      simp only [serviceVulnRow, hsrc, hv, if_neg hnc]
  refine ⟨hrow, ?_, ?_, by decide, by decide, by decide, by decide⟩
  · simp [matchedServiceVuln, List.filterMap_append, List.filterMap_cons, hrow]
  · simp [serviceVulnSection, List.filterMap_append, List.filterMap_cons, hrow]

theorem C10_missing_cve_id_invisible_witness :
    serviceVulnRow
      [⟨"Service", [("name", .pvStr "nginx"), ("version", .pvStr "1.21")]⟩,
       ⟨"Vulnerability", [("description", .pvStr "d"), ("cvss", .pvInt 7),
         ("is_vulnerable", .pvBool true)]⟩]
      ⟨0, 1, "HAS_VULNERABILITY", []⟩ = none ∧
    matchedServiceVuln
      ⟨[⟨"Service", [("name", .pvStr "nginx"), ("version", .pvStr "1.21")]⟩,
        ⟨"Vulnerability", [("description", .pvStr "d"), ("cvss", .pvInt 7),
          ("is_vulnerable", .pvBool true)]⟩],
       [] ++ (⟨0, 1, "HAS_VULNERABILITY", []⟩ : GEdge) :: []⟩ =
    matchedServiceVuln
      ⟨[⟨"Service", [("name", .pvStr "nginx"), ("version", .pvStr "1.21")]⟩,
        ⟨"Vulnerability", [("description", .pvStr "d"), ("cvss", .pvInt 7),
          ("is_vulnerable", .pvBool true)]⟩],
       [] ++ []⟩ ∧
    serviceVulnSection
      ⟨[⟨"Service", [("name", .pvStr "nginx"), ("version", .pvStr "1.21")]⟩,
        ⟨"Vulnerability", [("description", .pvStr "d"), ("cvss", .pvInt 7),
          ("is_vulnerable", .pvBool true)]⟩],
       [] ++ (⟨0, 1, "HAS_VULNERABILITY", []⟩ : GEdge) :: []⟩ =
    serviceVulnSection
      ⟨[⟨"Service", [("name", .pvStr "nginx"), ("version", .pvStr "1.21")]⟩,
        ⟨"Vulnerability", [("description", .pvStr "d"), ("cvss", .pvInt 7),
          ("is_vulnerable", .pvBool true)]⟩],
       [] ++ []⟩ ∧
    (firstIngest noCveRecord 0).2 = none ∧
    (firstIngest noCveRecord 0).1.nodes.map (fun n => (n.label, assocLookup n.props "cve_id")) =
      [("Host", none), ("IPAddress", none), ("Port", none), ("Service", none),
       ("Vulnerability", none)] ∧
    (firstIngest noCveRecord 0).1.edges.map (fun ed => ed.relType) =
      ["RESOLVES_TO", "HOSTS", "RUNS", "HAS_VULNERABILITY"] ∧
    serviceVulnSection (firstIngest noCveRecord 0).1 = [] :=
  C10_missing_cve_id_invisible
    [⟨"Service", [("name", .pvStr "nginx"), ("version", .pvStr "1.21")]⟩,
     ⟨"Vulnerability", [("description", .pvStr "d"), ("cvss", .pvInt 7),
       ("is_vulnerable", .pvBool true)]⟩]
    [] [] ⟨0, 1, "HAS_VULNERABILITY", []⟩
    ⟨"Vulnerability", [("description", .pvStr "d"), ("cvss", .pvInt 7),
      ("is_vulnerable", .pvBool true)]⟩
    (by decide) (Or.inl (by decide))

/-- A schema like `schema0` but whose IPAddress and Service entries declare no
outgoing relationships, so the IPAddress→Port and Service→Vulnerability
upserts are undeclared pairs while Host→IPAddress and Port→Service stay
declared. -/
def schemaC5 : Schema :=
  [("Host",
    { constraints := ["name"],
      relationships := [("IPAddress",
        { type := "RESOLVES_TO",
          default_props := [("resolution_type", .pvStr "A")],
          index_prop := "last_seen" })] }),
   ("IPAddress",
    { constraints := ["address"],
      relationships := [] }),
   ("Port",
    { constraints := [],
      relationships := [("Service",
        { type := "RUNS",
          default_props := [("status", .pvStr "running")],
          index_prop := "last_seen" })] }),
   ("Service",
    { constraints := ["name", "version"],
      relationships := [] }),
   ("Vulnerability",
    { constraints := ["description", "cve_id"],
      relationships := [] })]

/-- Claim C5 counterexample: under `schemaC5` the IPAddress→Port upsert of
`add_entity` raises the invalid-relationship `ValueError`, and because
`add_entity` has no handler (src/threatmap.py lines 122-171 contain no
try/except), the remaining sibling upserts of the same record — including the
Port→Service one, which IS declared and would succeed — are never attempted:
the final store holds only the already-committed RESOLVES_TO edge (which is
indeed not rolled back). -/
theorem C5_counterexample :
    (add_entity schemaC5 0 exampleRecord GraphState.empty).2 =
      some "Invalid relationship: IPAddress -> Port" ∧
    (add_entity schemaC5 0 exampleRecord GraphState.empty).1.edges.map (fun e => e.relType) =
      ["RESOLVES_TO"] ∧
    (add_entity schemaC5 0 exampleRecord GraphState.empty).1.nodes.map (fun n => n.label) =
      ["Host", "IPAddress"] := by
  decide

/-- Claim C5 (amended): an edge upsert whose from-label is not in the schema,
or whose to-label is not a declared relationship target of it, fails with the
invalid-relationship error (src/threatmap.py lines 88-89); within the same
`add_entity` call the edges already committed before the failure are NOT
rolled back (each query runs in its own session), but the remaining sibling
upserts are NOT attempted either: the uncaught exception aborts the rest of
the call at the failing port (respectively at the failing vulnerability). -/
theorem C5_invalid_relationship_aborts (schema : Schema) (now : Nat)
    (from_node to_node : NodeSpec) (properties : Props) (g : GraphState)
    (ip : String) (p : Port) (rest : List Port) (g0 : GraphState) (eP : String)
    (sdata : Props) (v : Vulnerability) (vrest : List Vulnerability) (gv : GraphState)
    (eV : String)
    (hbad : assocLookup schema from_node.label = none ∨
      ∃ entry, assocLookup schema from_node.label = some entry ∧
        assocLookup entry.relationships to_node.label = none)
    (hip : create_relationship schema now ⟨"IPAddress", [("address", .pvStr ip)]⟩
      ⟨"Port", port_properties ip p⟩ [] g0 = .error eP)
    (hvv : create_relationship schema now ⟨"Service", sdata⟩
      ⟨"Vulnerability", vuln_data v⟩ [] gv = .error eV) :
    create_relationship schema now from_node to_node properties g =
      .error ("Invalid relationship: " ++ from_node.label ++ " -> " ++ to_node.label) ∧
    ingestPorts schema now ip (p :: rest) g0 = (g0, some eP) ∧
    ingestVulns schema now sdata (v :: vrest) gv = (gv, some eV) := by
  refine ⟨?_, ?_, ?_⟩
  · rcases hbad with hb | ⟨entry, hb1, hb2⟩
    · simp only [create_relationship, hb]
    · simp only [create_relationship, hb1, hb2]
  · simp only [ingestPorts]
    rw [hip]
  · simp only [ingestVulns]
    rw [hvv]

theorem C5_invalid_relationship_aborts_witness :
    create_relationship schemaC5 0 ⟨"IPAddress", [("address", .pvStr "10.0.0.5")]⟩
      ⟨"Port", port_properties "10.0.0.5" ⟨80, "tcp", ⟨"nginx", "1.21"⟩, []⟩⟩ []
      GraphState.empty =
      .error ("Invalid relationship: " ++ "IPAddress" ++ " -> " ++ "Port") ∧
    ingestPorts schemaC5 0 "10.0.0.5" [⟨80, "tcp", ⟨"nginx", "1.21"⟩, []⟩]
      GraphState.empty =
      (GraphState.empty, some "Invalid relationship: IPAddress -> Port") ∧
    ingestVulns schemaC5 0 (service_data ⟨"sshd", "8.9"⟩)
      [⟨some "CVE-2021-1234", "outdated TLS config", 7, true⟩] GraphState.empty =
      (GraphState.empty, some "Invalid relationship: Service -> Vulnerability") :=
  C5_invalid_relationship_aborts schemaC5 0
    ⟨"IPAddress", [("address", .pvStr "10.0.0.5")]⟩
    ⟨"Port", port_properties "10.0.0.5" ⟨80, "tcp", ⟨"nginx", "1.21"⟩, []⟩⟩ []
    GraphState.empty "10.0.0.5" ⟨80, "tcp", ⟨"nginx", "1.21"⟩, []⟩ [] GraphState.empty
    "Invalid relationship: IPAddress -> Port" (service_data ⟨"sshd", "8.9"⟩)
    ⟨some "CVE-2021-1234", "outdated TLS config", 7, true⟩ [] GraphState.empty
    "Invalid relationship: Service -> Vulnerability"
    (Or.inr ⟨⟨["address"], []⟩, by decide, by decide⟩) (by decide) (by decide)

theorem hostIPSection_eq (nodes : List GNode) : ∀ l : List GEdge,
    hostIPSection ⟨nodes, l⟩ =
      ((matchedHostIP ⟨nodes, l⟩).filter (fun r => decide ¬ hostIPSkip r)).map hostIPDescription
  | [] => rfl
  | e :: l => by
    have ih := hostIPSection_eq nodes l
    simp only [hostIPSection, matchedHostIP, List.filterMap_cons] at ih ⊢
    cases hrow : hostIPRow nodes e with
    | none => simp [hrow, ih]
    | some r =>
      by_cases hk : hostIPSkip r
      · simp [hrow, hk, ih]
      · simp [hrow, hk, ih]

theorem ipPortSection_eq (nodes : List GNode) : ∀ l : List GEdge,
    ipPortSection ⟨nodes, l⟩ =
      ((matchedIpPort ⟨nodes, l⟩).filter (fun r => decide ¬ ipPortSkip r)).map ipPortDescription
  | [] => rfl
  | e :: l => by
    have ih := ipPortSection_eq nodes l
    simp only [ipPortSection, matchedIpPort, List.filterMap_cons] at ih ⊢
    cases hrow : ipPortRow nodes e with
    | none => simp [hrow, ih]
    | some r =>
      by_cases hk : ipPortSkip r
      · simp [hrow, hk, ih]
      · simp [hrow, hk, ih]

theorem portServiceSection_eq (nodes : List GNode) : ∀ l : List GEdge,
    portServiceSection ⟨nodes, l⟩ =
      ((matchedPortService ⟨nodes, l⟩).filter (fun r => decide ¬ portServiceSkip r)).map portServiceDescription
  | [] => rfl
  | e :: l => by
    have ih := portServiceSection_eq nodes l
    simp only [portServiceSection, matchedPortService, List.filterMap_cons] at ih ⊢
    cases hrow : portServiceRow nodes e with
    | none => simp [hrow, ih]
    | some r =>
      by_cases hk : portServiceSkip r
      · simp [hrow, hk, ih]
      · simp [hrow, hk, ih]

theorem serviceVulnSection_eq (nodes : List GNode) : ∀ l : List GEdge,
    serviceVulnSection ⟨nodes, l⟩ =
      ((matchedServiceVuln ⟨nodes, l⟩).filter (fun r => decide ¬ serviceVulnSkip r)).map serviceVulnDescription
  | [] => rfl
  | e :: l => by
    have ih := serviceVulnSection_eq nodes l
    simp only [serviceVulnSection, matchedServiceVuln, List.filterMap_cons] at ih ⊢
    cases hrow : serviceVulnRow nodes e with
    | none => simp [hrow, ih]
    | some r =>
      by_cases hk : serviceVulnSkip r
      · simp [hrow, hk, ih]
      · simp [hrow, hk, ih]

/-- Claim C9 (amended): on every store state, `get_kg_data` behaves as the
(amended) specification sentence describes: queries in the fixed order
Host→IP, IP→Port, Port→Service, Service→Vulnerability; every matched edge
whose required descriptive properties are falsy — null/missing, but also the
empty string or the number 0 (Python truthiness) — is excluded; the documented
defaults (`resolution_type` "A", port status "open", service status "running")
are substituted for absent optional fields; one description line per
remaining edge, joined by newlines; and the sentinel string is returned
exactly when no description line was produced — which can happen even though
edges matched, if every matched edge was skipped. -/
theorem C9_summarize_agreement (g : GraphState) : get_kg_data g = summarize_spec g := by
  simp only [get_kg_data, summarize_spec]
  rw [show g = ⟨g.nodes, g.edges⟩ from rfl, hostIPSection_eq, ipPortSection_eq,
    portServiceSection_eq, serviceVulnSection_eq]

/-- Claim C9 counterexample (to the original sentinel clause): ingesting a
record whose service name is empty (host and ip empty as well) yields a store
with one RUNS edge that the Port→Service query MATCHES — `s.name IS NOT NULL`
holds, the name is `""`, not null — yet the record-level skip drops it, no
line is produced, and `get_kg_data` returns the sentinel even though an edge
matched. -/
theorem C9_counterexample :
    matchedPortService
        (firstIngest (oneVulnRecord "" "" 80 "tcp" "" "1.0" "desc" 7 true none) 0).1 ≠ [] ∧
    get_kg_data (firstIngest (oneVulnRecord "" "" 80 "tcp" "" "1.0" "desc" 7 true none) 0).1 =
      "No valid relationships found in the graph." := by
  decide

/-- A record with three ports, two of them sharing port number 80 (differing
protocol) and all sharing one service — the shapes that stress the Port
`ON MATCH SET b = ...` property mutation and node sharing. -/
def twoPortRecord : ScanResult :=
  ⟨"example.com", "10.0.0.5",
   [⟨80, "tcp", ⟨"nginx", "1.21"⟩, [⟨some "CVE-1", "d1", 7, true⟩]⟩,
    ⟨80, "udp", ⟨"nginx", "1.21"⟩, []⟩,
    ⟨443, "tcp", ⟨"nginx", "1.21"⟩, [⟨none, "d2", 5, false⟩]⟩]⟩

/-- The second-ingest behavior established by `C4_second_ingest_idempotent`
for the one-port family also holds on the duplicate-port, shared-service
record: counts and nodes unchanged, `created_at` preserved, `last_seen`
advanced exactly on the HOSTS edges. -/
theorem second_ingest_duplicate_ports_check :
    (firstIngest twoPortRecord 0).2 = none ∧
    (secondIngest twoPortRecord 0 1).2 = none ∧
    (secondIngest twoPortRecord 0 1).1.nodes = (firstIngest twoPortRecord 0).1.nodes ∧
    (secondIngest twoPortRecord 0 1).1.edges.length =
      (firstIngest twoPortRecord 0).1.edges.length ∧
    (secondIngest twoPortRecord 0 1).1.edges.map
        (fun e => (e.relType, assocLookup e.props "created_at",
          assocLookup e.props "last_seen")) =
      [("RESOLVES_TO", some (.pvDate 0), some (.pvDate 0)),
       ("HOSTS", some (.pvDate 0), some (.pvDate 1)),
       ("RUNS", some (.pvDate 0), some (.pvDate 0)),
       ("HAS_VULNERABILITY", some (.pvDate 0), some (.pvDate 0)),
       ("HOSTS", some (.pvDate 0), some (.pvDate 1)),
       ("RUNS", some (.pvDate 0), some (.pvDate 0)),
       ("HAS_VULNERABILITY", some (.pvDate 0), some (.pvDate 0))] := by
  decide

set_option maxRecDepth 4000 in
/-- End-to-end check on the spec's example record: the ingested store holds
exactly the four edges RESOLVES_TO, HOSTS, RUNS, HAS_VULNERABILITY, and the
summarizer renders the four expected description lines, with the documented
defaults (type A, status open, status running) substituted. -/
theorem end_to_end_example_check :
    (firstIngest exampleRecord 0).1.edges.map (fun e => e.relType) =
      ["RESOLVES_TO", "HOSTS", "RUNS", "HAS_VULNERABILITY"] ∧
    get_kg_data (firstIngest exampleRecord 0).1 =
      "Host example.com RESOLVES_TO IP address 10.0.0.5 (type: A, last seen: datetime-0)\n" ++
      "IP 10.0.0.5 HOSTS port 80/tcp (status: open)\n" ++
      "Port 80 on 10.0.0.5 RUNS nginx version 1.21 (status: running)\n" ++
      "Service nginx (version 1.21) HAS_VULNERABILITY CVE-2021-1234: " ++
      "outdated TLS config (CVSS: 7, detected: unknown)" := by
  decide

/-! ### Infrastructure for the general re-ingestion theorems

General lemmas about the store model, used to settle the universally
quantified forms of the empty-host and re-ingestion claims. -/

theorem assocLookup_setProp_same (ps : Props) (k : String) (v : PropValue) :
    assocLookup (setProp ps k v) k = some v := by
  induction ps with
  | nil => simp [setProp, assocLookup]
  | cons hd tl ih =>
    obtain ⟨k1, v1⟩ := hd
    by_cases hk : k1 = k
    · simp [setProp, hk, assocLookup]
    · simp [setProp, hk, assocLookup, ih]

/-- Setting a key to the value it already holds leaves the map unchanged. -/
theorem setProp_self {ps : Props} {k : String} {v : PropValue}
    (h : assocLookup ps k = some v) : setProp ps k v = ps := by
  induction ps with
  | nil => cases h
  | cons hd tl ih =>
    obtain ⟨k1, v1⟩ := hd
    by_cases hk : k1 = k
    · subst hk
      unfold assocLookup at h
      rw [if_pos rfl] at h
      cases h
      simp [setProp]
    · unfold assocLookup at h
      rw [if_neg hk] at h
      simp [setProp, hk, ih h]

theorem assocLookup_updateProps_pair (dp : Props) (t : Nat) :
    assocLookup (updateProps dp [("created_at", .pvDate t), ("last_seen", .pvDate t)])
      "last_seen" = some (.pvDate t) := by
  unfold updateProps
  simp only [List.foldl]
  exact assocLookup_setProp_same _ _ _

theorem list_set_self {α : Type _} {l : List α} {n : Nat} {a : α} (h : l.get? n = some a) :
    l.set n a = l := by
  induction l generalizing n with
  | nil => cases h
  | cons hd tl ih =>
    cases n with
    | zero => cases h; rfl
    | succ m =>
      simp only [List.get?] at h
      simp [List.set, ih h]

/-- The part of an edge that property updates never touch. -/
def skelEq (e e' : GEdge) : Prop :=
  e'.src = e.src ∧ e'.dst = e.dst ∧ e'.relType = e.relType

theorem findEdgeAB_go_congr {a : Nat} {rt : String} {b : Nat}
    {es es' : List GEdge} (hf : List.Forall₂ skelEq es es') :
    ∀ k, findEdgeAB.go a rt b es k = findEdgeAB.go a rt b es' k := by
  induction hf with
  | nil => intro k; rfl
  | @cons x y l1 l2 hr hrest ih =>
    intro k
    unfold findEdgeAB.go
    obtain ⟨h1, h2, h3⟩ := hr
    by_cases hx : x.src = a ∧ x.relType = rt ∧ x.dst = b
    · rw [if_pos hx, if_pos (by rw [h1, h2, h3]; exact hx)]
    · rw [if_neg hx, if_neg (fun hy => hx (by rw [← h1, ← h2, ← h3]; exact hy))]
      exact ih (k + 1)

theorem findRelPatternFrom_eq_none {ns : List GNode} {a : Nat} {rt lbl : String}
    {pat : Props} :
    ∀ {l : List GEdge} {k : Nat},
      (∀ e ∈ l, ¬(e.src = a ∧ e.relType = rt ∧ edgeDstMatches ns e lbl pat)) →
      findRelPatternFrom ns a rt lbl pat l k = none := by
  intro l
  induction l with
  | nil => intro k _; rfl
  | cons x rest ih =>
    intro k h
    unfold findRelPatternFrom
    rw [if_neg (h x (List.mem_cons_self x rest))]
    exact ih (fun e he => h e (List.mem_cons_of_mem x he))

